import Mathlib

/-!
Shallow embedding of the PulseID personalization widget (`src/src/App.jsx`,
current revision: the variant with the design slot and the preloaded preview
pipeline).  JavaScript strings are modelled as Lean `String`, JS numbers on
count fields as `Int`, optional / possibly-absent fields as `Option`, and the
ad-hoc regular expressions of the source as explicit character scanners.
-/

namespace Rbg

/-- ASCII whitespace, modelling the whitespace class used by `String.prototype.trim`
and `\s` in the source's regular expressions (restricted to ASCII). -/
def isSpaceChar (c : Char) : Bool :=
  c = ' ' || c = '\t' || c = '\n' || c = '\r'

/-- Model of `String.prototype.trim`. -/
def jsTrim (s : String) : String :=
  String.mk (((s.data.dropWhile isSpaceChar).reverse.dropWhile isSpaceChar).reverse)

/-- ASCII lower-casing of one character, modelling `toLowerCase` per character. -/
def lowerChar (c : Char) : Char :=
  if 'A' ≤ c ∧ c ≤ 'Z' then Char.ofNat (c.toNat + 32) else c

/-- Model of `String.prototype.toLowerCase` (ASCII). -/
def lowerStr (s : String) : String :=
  String.mk (s.data.map lowerChar)

/-- Does `hay` contain `needle` as a contiguous sublist?  Models
`String.prototype.includes`. -/
def listContains (needle : List Char) : List Char → Bool
  | [] => needle.isEmpty
  | c :: rest => needle.isPrefixOf (c :: rest) || listContains needle rest

/-- `hay.includes(needle)` on strings. -/
def strContains (hay needle : String) : Bool :=
  listContains needle.data hay.data

/-- `s.startsWith(p)` on strings. -/
def strStartsWith (s p : String) : Bool :=
  p.data.isPrefixOf s.data

/-- `s.endsWith(p)` on strings. -/
def strEndsWith (s p : String) : Bool :=
  p.data.isSuffixOf s.data

/-- A word character in the sense of the regex `\b` boundary: `[A-Za-z0-9_]`. -/
def isWordChar (c : Char) : Bool :=
  c.isAlphanum || c = '_'

/-- There is a `\b` boundary between the scanned prefix and this suffix iff the
suffix is empty or starts with a non-word character (the needles searched for
always consist of word characters). -/
def wordBoundaryRight : List Char → Bool
  | [] => true
  | c :: _ => !isWordChar c

/-- Does `needle` occur at the head of `l` followed by a word boundary? -/
def matchesWordAt (needle l : List Char) : Bool :=
  needle.isPrefixOf l && wordBoundaryRight (l.drop needle.length)

/-- Scan for an occurrence of `needle` preceded (left) and followed (right) by a
word boundary; `leftB` records whether the current position follows a non-word
character or the start of the string. -/
def containsWordAux (needle : List Char) (leftB : Bool) : List Char → Bool
  | [] => false
  | c :: rest =>
    (leftB && matchesWordAt needle (c :: rest)) || containsWordAux needle (!isWordChar c) rest

/-- Model of testing the regex `/(^|\b)needle\b/` (for needles made of word
characters, e.g. `\b3\b`, `\btop\b`). -/
def containsWord (needle hay : String) : Bool :=
  containsWordAux needle.data true hay.data

/-- After the literal `line`, skip `\s*` whitespace and require digit `d`
followed by a word boundary — the tail of the regex `/line\s*d\b/`. -/
def afterLineWs (d : Char) : List Char → Bool
  | [] => false
  | c :: rest => if isSpaceChar c then afterLineWs d rest else c == d && wordBoundaryRight rest

/-- Model of testing `/line\s*d\b/` on an (already lower-cased) string. -/
def hasLineNumAux (d : Char) : List Char → Bool
  | [] => false
  | c :: rest =>
    (("line".data).isPrefixOf (c :: rest) && afterLineWs d ((c :: rest).drop 4))
      || hasLineNumAux d rest

/-- `/line\s*d\b/.test(n)` for a lower-cased `n`. -/
def hasLineNum (d : Char) (n : String) : Bool :=
  hasLineNumAux d n.data

/-- Numeric value of a list of decimal digits (`parseInt` on a digit run). -/
def natFromDigits (ds : List Char) : Nat :=
  ds.foldl (fun n c => n * 10 + (c.toNat - 48)) 0

/-- First match of `/line\s*(\d+)/` in an already lower-cased string: the digit
run captured, if any. -/
def lineDigitsAux : List Char → Option (List Char)
  | [] => none
  | c :: rest =>
    if ("line".data).isPrefixOf (c :: rest) then
      let after := ((c :: rest).drop 4).dropWhile isSpaceChar
      let ds := after.takeWhile Char.isDigit
      if ds.isEmpty then lineDigitsAux rest else some ds
    else lineDigitsAux rest

/-- Model of `parseInt(name.match(/line\s*(\d+)/i)?.[1] || '999', 10)`:
the embedded line number of an element name, defaulting to 999. -/
def lineNumberOf (name : String) : Nat :=
  match lineDigitsAux (lowerStr name).data with
  | some ds => natFromDigits ds
  | none => 999

/-- Is `c` one of `[0-9a-fA-F]`? -/
def isHexDigit (c : Char) : Bool :=
  c.isDigit || ('a' ≤ c ∧ c ≤ 'f') || ('A' ≤ c ∧ c ≤ 'F')

/-- Model of testing `/^#?[0-9a-f]{6}$/i`. -/
def hex6 (s : String) : Bool :=
  (s.data.length == 6 && s.data.all isHexDigit)
    || (match s.data with
        | '#' :: rest => rest.length == 6 && rest.all isHexDigit
        | _ => false)

/-- Model of testing `/^rgb\(/i`. -/
def rgbPrefix (s : String) : Bool :=
  match s.data with
  | a :: b :: c :: d :: _ =>
    (a = 'r' || a = 'R') && (b = 'g' || b = 'G') && (c = 'b' || c = 'B') && d = '('
  | _ => false

/-- `s.startsWith('#')`. -/
def startsHash (s : String) : Bool :=
  match s.data with
  | '#' :: _ => true
  | _ => false

/-- Model of `s.match(/^(\d{3,4})/)?.[1]`: the leading run of digits, truncated
greedily at four, provided at least three are present. -/
def codePrefix (s : String) : Option String :=
  let ds := s.data.takeWhile Char.isDigit
  if 3 ≤ ds.length then some (String.mk (ds.take 4)) else none

/-- Model of `s.split(/\s*-\s*/)`: split at every dash and trim the pieces. -/
def dashSplit (s : String) : List String :=
  (s.splitOn "-").map jsTrim

/-- JavaScript `a || b` on optional string fields: keep `a` when it is a
non-empty (truthy) string, otherwise fall through to `b`. -/
def jsOrS (a b : Option String) : Option String :=
  if a.getD "" = "" then b else a

/-- Truthiness of an optional string field (`el && el.Field`). -/
def truthy (o : Option String) : Bool :=
  o.getD "" != ""

/-! ## Data model (the `@typedef` blocks of `App.jsx`) -/

/-- `PulseColour`: one palette entry returned by `GetColours`. -/
structure Colour where
  Code : String
  Name : String
  Red : Nat
  Green : Nat
  Blue : Nat
deriving DecidableEq, Repr

/-- The string `` `rgb(${c.Red}, ${c.Green}, ${c.Blue})` `` built throughout the
source for a palette entry. -/
def rgbStr (c : Colour) : String :=
  "rgb(" ++ toString c.Red ++ ", " ++ toString c.Green ++ ", " ++ toString c.Blue ++ ")"

/-- `PulseFont`: one catalog entry returned by `GetFonts` (fields not consulted
by the embedded functions are omitted). -/
structure FontEntry where
  FontName : String
deriving DecidableEq, Repr

/-- `TemplateFontMap`: one row of `Template.TemplateFonts`
(`PulseFont -> FontName`); absent fields are modelled as `""`. -/
structure TemplateFontMap where
  PulseFont : String
  FontName : String
deriving DecidableEq, Repr

/-- `TemplateElement`. `Text = none` models a field that is not a string
(`typeof el.Text === 'string'` fails); `ElementName` defaults to `""`. -/
structure TemplateElement where
  ElementName : String
  Text : Option String
  FontOverride : Option String
  TextColour : Option String
deriving DecidableEq, Repr

/-- `PulseTemplate`.  The three explicit line-count aliases are JS numbers when
present (`Option Int`); `TemplateElements = none` models a template on which
`Array.isArray(t.TemplateElements)` is false. -/
structure Template where
  Name : String
  Code : String
  TextLines : Option Int
  NumberOfTextLines : Option Int
  Lines : Option Int
  TemplateElements : Option (List TemplateElement)
  TemplateFonts : Option (List TemplateFontMap)
  FontOverride : Option String
  DefaultFont : Option String
  Font : Option String
  TextColour : Option String
  DefaultColour : Option String
  Colour : Option String
deriving DecidableEq, Repr

/-- A template record with every optional field absent. -/
def Template.empty : Template :=
  ⟨"", "", none, none, none, none, none, none, none, none, none, none, none⟩

/-- `PulseDesign` (only the field consulted by the render builder). -/
structure Design where
  DesignName : String
deriving DecidableEq, Repr

/-! ## Palette Resolver — `findColourRgbFromTemplateValue` -/

/-- The `colours.find(c => String(c.Code) === code)` lookup. -/
def codeFind (code : String) (colours : List Colour) : Option Colour :=
  colours.find? (fun c => c.Code == code)

/-- The exact case-insensitive name lookup
`colours.find(c => String(c.Name).toLowerCase() === s.toLowerCase())`. -/
def exactNameFind (s : String) (colours : List Colour) : Option Colour :=
  colours.find? (fun c => lowerStr c.Name == lowerStr s)

/-- The bidirectional substring lookup
`colours.find(c => c.Name.toLowerCase().includes(s.toLowerCase()) ||
s.toLowerCase().includes(c.Name.toLowerCase()))`. -/
def overlapFind (s : String) (colours : List Colour) : Option Colour :=
  colours.find? (fun c =>
    strContains (lowerStr c.Name) (lowerStr s) || strContains (lowerStr s) (lowerStr c.Name))

/-- The dash-suffix lookup: `parts = s.split(/\s*-\s*/)`, and when several parts
exist, `tail = parts.slice(1).join(' - ')` matched as a substring of a name. -/
def tailFind (s : String) (colours : List Colour) : Option Colour :=
  let parts := dashSplit s
  if parts.length > 1 then
    let tail := String.intercalate " - " (parts.drop 1)
    colours.find? (fun c => strContains (lowerStr c.Name) (lowerStr tail))
  else none

/-- `findColourRgbFromTemplateValue(value, colours)` — the Palette Resolver.
Strategy chain exactly as in the source: falsy/empty guard, `rgb(` pass-through,
6-hex-digit normalization, leading 3–4 digit code, exact name, substring
overlap, dash-suffix. -/
def findColourRgbFromTemplateValue (value : String) (colours : List Colour) : Option String :=
  if value = "" ∨ colours = [] then none
  else
    let s := jsTrim value
    if rgbPrefix s then some s
    else if hex6 s then some (if startsHash s then s else "#" ++ s)
    else
      let byCode := match codePrefix s with
        | some code => codeFind code colours
        | none => none
      match byCode with
      | some c => some (rgbStr c)
      | none =>
        match exactNameFind s colours with
        | some c => some (rgbStr c)
        | none =>
          match overlapFind s colours with
          | some c => some (rgbStr c)
          | none =>
            match tailFind s colours with
            | some c => some (rgbStr c)
            | none => none

/-! ## Template Normalizer — `getTemplateLineCount` -/

/-- The first explicit line-count alias carried by the template:
`typeof t.TextLines === 'number' ? t.TextLines : typeof t.NumberOfTextLines …`. -/
def explicitLineField (t : Template) : Option Int :=
  t.TextLines <|> t.NumberOfTextLines <|> t.Lines

/-- An element passing `el && typeof el.Text === 'string' && el.Text.trim().length > 0`. -/
def hasNonEmptyText (el : TemplateElement) : Bool :=
  jsTrim (el.Text.getD "") != ""

/-- The keyword tests of the line-count heuristic, applied to the lower-cased
`` `${t.Name || ''} ${t.Code || ''}` `` string. -/
def lineCountKeyword (s : String) : Int :=
  if strContains s "design only" then 0
  else if strContains s "three" || containsWord "3" s then 3
  else if strContains s "two" || containsWord "2" s then 2
  else if strContains s "one" || containsWord "1" s then 1
  else 1

/-- The keyword heuristic over the template's name/code, used when a template
has neither an explicit count nor elements. -/
def lineCountHeuristic (t : Template) : Int :=
  lineCountKeyword (lowerStr (t.Name ++ " " ++ t.Code))

/-- `getTemplateLineCount(t)`: explicit field clamped to `[0,3]`, else count of
elements with non-empty trimmed `Text` clamped (0 when elements exist but none
carry text), else the name/code heuristic; `1` for a falsy template. -/
def getTemplateLineCount (t : Option Template) : Int :=
  match t with
  | none => 1
  | some t =>
    match explicitLineField t with
    | some n => max 0 (min 3 n)
    | none =>
      match t.TemplateElements with
      | some els =>
        let textElements := els.filter hasNonEmptyText
        if textElements.length > 0 then max 0 (min 3 (textElements.length : Int)) else 0
      | none => lineCountHeuristic t

/-! ## Element ranking and ordering -/

/-- `rankElementName(name)`: heuristic rank — 1 for top/upper/`text`/line 1,
2 for bottom/bot/lower/line 2, 3 for line 3, 999 otherwise. -/
def rankElementName (name : String) : Nat :=
  let n := lowerStr (jsTrim name)
  if n = "" then 999
  else if containsWord "top" n || containsWord "upper" n then 1
  else if n = "text" then 1
  else if hasLineNum '1' n then 1
  else if containsWord "bottom" n || containsWord "bot" n || containsWord "lower" n then 2
  else if hasLineNum '2' n then 2
  else if hasLineNum '3' n then 3
  else 999

/-- Stable insertion of `x` into a sorted list: `x` is placed before the first
element `y` with `le x y`. -/
def insertSorted (le : α → α → Bool) (x : α) : List α → List α
  | [] => [x]
  | y :: ys => if le x y then x :: y :: ys else y :: insertSorted le x ys

/-- Stable sort by a boolean `≤`, modelling `Array.prototype.sort` with a
three-way comparator (stable per the ECMAScript specification). -/
def sortStable (le : α → α → Bool) (l : List α) : List α :=
  l.foldr (insertSorted le) []

/-- The comparator `(a.rank - b.rank) || (a.numeric - b.numeric) ||
a.name.localeCompare(b.name)` as a boolean `≤` on named entries. -/
structure RankedName where
  name : String
  rank : Nat
  numeric : Nat
deriving DecidableEq, Repr

/-- `cmp(a,b) <= 0` for the ranked-name comparator. -/
def rankedLe (a b : RankedName) : Bool :=
  if a.rank < b.rank then true
  else if b.rank < a.rank then false
  else if a.numeric < b.numeric then true
  else if b.numeric < a.numeric then false
  else !(b.name < a.name)

/-- `getElementNamesForTemplate(template, count)`: ordered element names for the
text lines, padded with synthesized `Line{n}` and truncated to `count`. -/
def getElementNamesForTemplate (template : Option Template) (count : Nat) : List String :=
  let fallback := (List.range count).map (fun i => "Line" ++ toString (i + 1))
  match template with
  | none => fallback
  | some t =>
    match t.TemplateElements with
    | none => fallback
    | some tels =>
      let els := ((tels.filter (fun el => el.Text.isSome)).map (fun el =>
          let name := jsTrim el.ElementName
          RankedName.mk name (rankElementName name) (lineNumberOf name)))
        |>.filter (fun e => e.name != "")
      if els.isEmpty then fallback
      else
        let ordered := (sortStable rankedLe els).map RankedName.name
        let padded := ordered ++
          ((List.range' (ordered.length + 1) (count - ordered.length)).map
            (fun n => "Line" ++ toString n))
        padded.take count

/-- `templateSupportsDesign(t)`: true iff some element's trimmed name equals
`"design"` case-insensitively; false when there are no `TemplateElements`. -/
def templateSupportsDesign (t : Option Template) : Bool :=
  match t with
  | none => false
  | some t =>
    match t.TemplateElements with
    | none => false
    | some els => els.any (fun el => lowerStr (jsTrim el.ElementName) == "design")

/-! ## `deriveControlsFromTemplate` -/

/-- The in-place sort of `textEls` in `deriveControlsFromTemplate`: rank, then
embedded line number, then `localeCompare`, applied to the raw element names. -/
def derivedElLe (a b : TemplateElement) : Bool :=
  rankedLe
    (RankedName.mk a.ElementName (rankElementName a.ElementName) (lineNumberOf a.ElementName))
    (RankedName.mk b.ElementName (rankElementName b.ElementName) (lineNumberOf b.ElementName))

/-- The sorted list of text-bearing elements (`typeof el.Text === 'string'`). -/
def sortedTextEls (template : Template) : List TemplateElement :=
  sortStable derivedElLe ((template.TemplateElements.getD []).filter (fun el => el.Text.isSome))

/-- The `lines` component of `deriveControlsFromTemplate`: texts of the first
three sorted text-bearing elements, else `count` empty strings. -/
def deriveLines (template : Template) : List String :=
  let textEls := sortedTextEls template
  if textEls.isEmpty then
    List.replicate (min (getTemplateLineCount (some template)).toNat 3) ""
  else (textEls.take 3).map (fun el => el.Text.getD "")

/-- The `font` component of `deriveControlsFromTemplate`: a text element's
truthy `FontOverride`, else any element's, else the first truthy of the
template-level `FontOverride`/`DefaultFont`/`Font`. -/
def deriveFont (template : Template) : Option String :=
  let elements := template.TemplateElements.getD []
  let textEls := sortedTextEls template
  let fontEl := (textEls.find? (fun el => truthy el.FontOverride)) <|>
    (elements.find? (fun el => truthy el.FontOverride))
  match fontEl with
  | some el => some (el.FontOverride.getD "")
  | none => jsOrS template.FontOverride (jsOrS template.DefaultFont template.Font)

/-- The `colorRgb` component of `deriveControlsFromTemplate`: the resolver
applied to a text element's truthy `TextColour`, else any element's, else the
template-level colour aliases; `none` when resolution fails. -/
def deriveColorRgb (template : Template) (colours : List Colour) : Option String :=
  let elements := template.TemplateElements.getD []
  let textEls := sortedTextEls template
  let colorEl := (textEls.find? (fun el => truthy el.TextColour)) <|>
    (elements.find? (fun el => truthy el.TextColour))
  match colorEl with
  | some el => findColourRgbFromTemplateValue (el.TextColour.getD "") colours
  | none =>
    match jsOrS template.TextColour (jsOrS template.DefaultColour template.Colour) with
    | some v => findColourRgbFromTemplateValue v colours
    | none => none

/-! ## Font Reconciler — `resolveFontFromOverride` -/

/-- Strip a font-file extension, modelling `replace(/\.(ttf|otf|woff2?)$/i, '')`. -/
def stripFontExt (s : String) : String :=
  let ls := lowerStr s
  if strEndsWith ls ".ttf" || strEndsWith ls ".otf" then String.mk (s.data.take (s.data.length - 4))
  else if strEndsWith ls ".woff2" then String.mk (s.data.take (s.data.length - 6))
  else if strEndsWith ls ".woff" then String.mk (s.data.take (s.data.length - 5))
  else s

/-- The `normalize` helper of `resolveFontFromOverride`: strip the extension,
drop all non-alphanumerics, lower-case. -/
def fontNormalize (s : String) : String :=
  lowerStr (String.mk ((stripFontExt s).data.filter Char.isAlphanum))

/-- Lookup of the raw override in `Template.TemplateFonts`
(`tf.find(f => String(f.PulseFont || '').toLowerCase() === ov.toLowerCase())`). -/
def pulseFind (ov : String) (tf : List TemplateFontMap) : Option TemplateFontMap :=
  tf.find? (fun f => lowerStr f.PulseFont == lowerStr ov)

/-- Case-insensitive exact lookup of a name in the font catalog. -/
def fontNameFind (name : String) (fonts : List FontEntry) : Option FontEntry :=
  fonts.find? (fun f => lowerStr f.FontName == lowerStr name)

/-- Normalized exact lookup in the font catalog. -/
def fontNormFind (nOv : String) (fonts : List FontEntry) : Option FontEntry :=
  fonts.find? (fun f => fontNormalize f.FontName == nOv)

/-- Prefix/suffix-tolerant normalized lookup in the font catalog. -/
def fontPrefixFind (nOv : String) (fonts : List FontEntry) : Option FontEntry :=
  fonts.find? (fun f =>
    strStartsWith (fontNormalize f.FontName) nOv || strStartsWith nOv (fontNormalize f.FontName))

/-- Step 1 of the Font Reconciler: mapping through `Template.TemplateFonts` —
when the first row whose (truthy) `PulseFont` matches the trimmed override
carries a `FontName` present in the catalog, that catalog name is returned. -/
def resolveFontStep1 (tpl : Template) (ov : String) (availableFonts : List FontEntry) :
    Option String :=
  match pulseFind ov (tpl.TemplateFonts.getD []) with
  | some m =>
    if m.FontName ≠ "" then (fontNameFind m.FontName availableFonts).map FontEntry.FontName
    else none
  | none => none

/-- Step 2 of the Font Reconciler, the forgiving compare against the catalog:
exact case-insensitive, then punctuation-insensitive (normalized), then
prefix/suffix-tolerant. -/
def resolveFontStep2 (ov : String) (availableFonts : List FontEntry) : Option String :=
  match fontNameFind ov availableFonts with
  | some f => some f.FontName
  | none =>
    match fontNormFind (fontNormalize ov) availableFonts with
    | some f => some f.FontName
    | none => (fontPrefixFind (fontNormalize ov) availableFonts).map FontEntry.FontName

/-- `resolveFontFromOverride(tpl, override, availableFonts)`: the Font
Reconciler — `TemplateFonts` mapping, then the forgiving catalog compare. -/
def resolveFontFromOverride (tpl : Template) (override : String)
    (availableFonts : List FontEntry) : Option String :=
  if override = "" ∨ availableFonts = [] then none
  else
    match resolveFontStep1 tpl (jsTrim override) availableFonts with
    | some r => some r
    | none => resolveFontStep2 (jsTrim override) availableFonts

/-! ## Render Request Builder — the personalization part of `debouncedRender` -/

/-- One personalization entry of the render request: either the five
`Personalizations[i].…` parameters pushed for a non-empty text line, or the
two parameters pushed for the selected design. -/
inductive Personalization where
  | text (idx : Nat) (elementName txt textColour fontOverride : String)
  | design (idx : Nat) (designName : String)
deriving DecidableEq, Repr

/-- `elementNames[i] || Line${i+1}`: the element name used for input line `i`
(the synthesized fallback also covers an empty-string entry, which is falsy). -/
def elNameAt (elementNames : List String) (i : Nat) : String :=
  match elementNames.get? i with
  | some n => if n = "" then "Line" ++ toString (i + 1) else n
  | none => "Line" ++ toString (i + 1)

/-- The `textLines.forEach` loop of `debouncedRender`: `i` is the input line
index, `p` the contiguous output index `pIndex`; a line whose trimmed text is
empty pushes nothing and leaves `pIndex` untouched. -/
def buildTextParts (elementNames : List String) (textColorCode font : String) :
    Nat → Nat → List String → List Personalization
  | _, _, [] => []
  | i, p, txt :: rest =>
    if jsTrim txt != "" then
      Personalization.text p (elNameAt elementNames i) txt textColorCode font
        :: buildTextParts elementNames textColorCode font (i + 1) (p + 1) rest
    else buildTextParts elementNames textColorCode font (i + 1) p rest

/-- The full personalization list of `debouncedRender`: the text entries, then —
whenever the selected design's trimmed `DesignName` is non-empty — one design
entry at the next `pIndex`. -/
def renderPersonalizations (textLines elementNames : List String)
    (textColorCode font : String) (selectedDesign : Option Design) : List Personalization :=
  let textParts := buildTextParts elementNames textColorCode font 0 0 textLines
  let designName := jsTrim ((selectedDesign.map Design.DesignName).getD "")
  textParts ++ (if designName = "" then [] else [Personalization.design textParts.length designName])

/-- The output index of a text entry (`none` for a design entry). -/
def textIdxOf : Personalization → Option Nat
  | .text p _ _ _ _ => some p
  | .design _ _ => none

/-- The `(index, name)` of a design entry (`none` for a text entry). -/
def designOf : Personalization → Option (Nat × String)
  | .text _ _ _ _ _ => none
  | .design p n => some (p, n)

/-! ## Preview Pipeline -/

/-- The preview-pipeline slice of the component state.  `loadsStarted` counts
off-screen image loads ever begun (the generation counter); `activeGen` is the
generation whose `onload`/`onerror` handlers are still attached — the preload
effect's cleanup nulls the handlers of the superseded image whenever
`pendingUrl` changes. -/
structure PreviewState where
  lastRenderUrl : String
  pendingUrl : String
  previewUrl : String
  displayedUrl : String
  isRendering : Bool
  imgKey : Nat
  loadsStarted : Nat
  activeGen : Option Nat
deriving DecidableEq, Repr

/-- Events of the preview pipeline: the debounced render body firing with a
freshly built URL, an off-screen image load completing or failing (tagged with
the generation whose `<img>` fired), and the 10-second spinner guard. -/
inductive PEvent where
  | debounceFire (newUrl : String)
  | loadOk (g : Nat)
  | loadErr (g : Nat)
  | spinnerTimeout
deriving DecidableEq, Repr

/-- One transition of the preview pipeline.

* `debounceFire u` — `if (newUrl !== lastRenderUrl)` set the spinner, publish
  `pendingUrl`, remember `lastRenderUrl`; the preload effect then re-runs: its
  cleanup detaches the superseded image's handlers and, for a non-empty URL, a
  fresh off-screen load (the next generation) begins.
* `loadOk g` — `img.onload`: only the generation whose handlers are still
  attached may promote `pendingUrl` to `previewUrl`/`displayedUrl`, bump
  `imgKey` and clear the spinner; a detached (stale) handler does nothing.
* `loadErr g` — `img.onerror`: only the attached generation clears the
  spinner; the displayed image is left untouched.
* `spinnerTimeout` — the 10-second guard forces the spinner off. -/
def step (s : PreviewState) (e : PEvent) : PreviewState :=
  match e with
  | .debounceFire u =>
    if u = s.lastRenderUrl then s
    else if u = "" then
      { s with isRendering := true, pendingUrl := u, lastRenderUrl := u, activeGen := none }
    else
      { s with isRendering := true, pendingUrl := u, lastRenderUrl := u,
               loadsStarted := s.loadsStarted + 1, activeGen := some (s.loadsStarted + 1) }
  | .loadOk g =>
    if s.activeGen = some g then
      { s with previewUrl := s.pendingUrl, displayedUrl := s.pendingUrl,
               imgKey := s.imgKey + 1, isRendering := false }
    else s
  | .loadErr g =>
    if s.activeGen = some g then { s with isRendering := false } else s
  | .spinnerTimeout => { s with isRendering := false }

/-! ## Template-change and initialization-effect state updates -/

/-- The `setTextLines` update of `handleSelectTemplate` (and of the initial
template selection in `fetchTemplates`): pad the previous lines with `''` up to
the resolved count, then `slice(0, Math.min(MAX_TEXT_LINES, count))`. -/
def selectTemplateLines (tpl : Template) (prev : List String) : List String :=
  let count := (getTemplateLineCount (some tpl)).toNat
  let next := prev ++ List.replicate (count - prev.length) ""
  next.take (min 3 count)

/-- The `setTextLines` update performed by the template-initialization effect:
`deriveControlsFromTemplate(...).lines.slice(0, MAX_TEXT_LINES)`. -/
def initEffectLines (tpl : Template) : List String :=
  (deriveLines tpl).take 3

/-- The colour update of the template-initialization effect: adopt a resolved
template colour; otherwise, only when no colour is selected yet, default to the
palette entry with `Code === "1801"`. -/
def initEffectColor (tpl : Template) (color : Option String) (colours : List Colour) :
    Option String :=
  match deriveColorRgb tpl colours with
  | some rgb => some rgb
  | none =>
    if color = none then (colours.find? (fun c => c.Code == "1801")).map rgbStr
    else color

/-! ## Helper lemmas -/

theorem buildTextParts_filterMap_textIdx (names : List String) (cc f : String) :
    ∀ (lines : List String) (i p : Nat),
      (buildTextParts names cc f i p lines).filterMap textIdxOf
        = List.range' p (lines.countP (fun t => jsTrim t != "")) := by
  intro lines
  induction lines with
  | nil => intro i p; simp [buildTextParts]
  | cons t rest ih =>
    intro i p
    cases h : (jsTrim t != "") with
    | false => simp [buildTextParts, h, List.countP_cons, ih]
    | true =>
      simp [buildTextParts, h, List.countP_cons, textIdxOf, ih, List.range'_succ]

theorem buildTextParts_filterMap_design (names : List String) (cc f : String) :
    ∀ (lines : List String) (i p : Nat),
      (buildTextParts names cc f i p lines).filterMap designOf = [] := by
  intro lines
  induction lines with
  | nil => intro i p; simp [buildTextParts]
  | cons t rest ih =>
    intro i p
    cases h : (jsTrim t != "") with
    | false => simp [buildTextParts, h, ih]
    | true => simp [buildTextParts, h, designOf, ih]

theorem buildTextParts_length (names : List String) (cc f : String) :
    ∀ (lines : List String) (i p : Nat),
      (buildTextParts names cc f i p lines).length
        = lines.countP (fun t => jsTrim t != "") := by
  intro lines
  induction lines with
  | nil => intro i p; simp [buildTextParts]
  | cons t rest ih =>
    cases h : (jsTrim t != "") <;>
      (intro i p; simp [buildTextParts, h, List.countP_cons, ih])

theorem renderPersonalizations_textIdx (textLines elementNames : List String)
    (cc f : String) (d : Option Design) :
    (renderPersonalizations textLines elementNames cc f d).filterMap textIdxOf
      = List.range (textLines.countP (fun t => jsTrim t != "")) := by
  unfold renderPersonalizations
  rw [List.filterMap_append, buildTextParts_filterMap_textIdx, List.range_eq_range']
  split <;> simp [textIdxOf]

/-! ## Claim theorems -/

/-- C1.  For every EditState, the render request built by the debounced render
effect indexes its text personalization entries contiguously starting at 0:
lines whose trimmed text is empty contribute no entry and leave no gap, and in
particular lines `["A","","C"]` yield exactly two text entries indexed 0, 1. -/
theorem renderRequest_text_indices_contiguous (textLines elementNames : List String)
    (cc f : String) (d : Option Design) :
    (renderPersonalizations textLines elementNames cc f d).filterMap textIdxOf
      = List.range (textLines.countP (fun t => jsTrim t != ""))
    ∧ (renderPersonalizations ["A", "", "C"] elementNames cc f d).filterMap textIdxOf
      = [0, 1] := by
  refine ⟨renderPersonalizations_textIdx .., ?_⟩
  rw [renderPersonalizations_textIdx]
  decide

/-- C4 counterexample.  A template without a `Design` element
(`templateSupportsDesign` is `false`) together with a selected design named
`"Star"`: the built render request nevertheless contains a design
personalization entry, refuting the claimed "only if the template supports the
design slot" direction. -/
def c4Template : Template :=
  { Template.empty with TemplateElements := some [⟨"Line1", some "Hi", none, none⟩] }

theorem designEntry_without_designSlot :
    templateSupportsDesign (some c4Template) = false
    ∧ (renderPersonalizations ["Hi"] (getElementNamesForTemplate (some c4Template) 1)
        "1801 - White" "Block" (some ⟨"Star"⟩)).filterMap designOf = [(1, "Star")] := by
  constructor
  · decide
  · decide

/-- C4 amended.  The render request contains a design personalization entry iff
the selected design's trimmed `DesignName` is non-empty — `debouncedRender`
never consults `templateSupportsDesign` — and when present the entry sits at
the next contiguous index after the text entries. -/
theorem designEntry_iff_designName (textLines elementNames : List String)
    (cc f : String) (d : Option Design) :
    (renderPersonalizations textLines elementNames cc f d).filterMap designOf
      = (if jsTrim ((d.map Design.DesignName).getD "") = "" then []
         else [(textLines.countP (fun t => jsTrim t != ""),
                jsTrim ((d.map Design.DesignName).getD ""))]) := by
  unfold renderPersonalizations
  rw [List.filterMap_append, buildTextParts_filterMap_design, buildTextParts_length]
  split <;> simp [designOf]

theorem not_space_of_hex {c : Char} (h : isHexDigit c = true) : isSpaceChar c = false := by
  by_contra hh
  have hs : isSpaceChar c = true := by
    cases hx : isSpaceChar c
    · exact absurd hx hh
    · rfl
  rcases (by simpa [isSpaceChar] using hs : ((c = ' ' ∨ c = '\t') ∨ c = '\n') ∨ c = '\r') with
    ((rfl | rfl) | rfl) | rfl <;> exact absurd h (by decide)

theorem beq_false_of_hex {c d : Char} (h : isHexDigit c = true) (hd : isHexDigit d = false) :
    (c == d) = false := by
  rw [beq_eq_false_iff_ne]
  rintro rfl
  rw [h] at hd
  exact Bool.true_eq_false.mp hd

theorem dropWhile_space_of_hex {l : List Char} (h : ∀ c ∈ l, isHexDigit c = true) :
    l.dropWhile isSpaceChar = l := by
  cases l with
  | nil => rfl
  | cons c rest =>
    rw [List.dropWhile_cons, not_space_of_hex (h c (by simp))]
    simp

theorem jsTrim_of_hex {s : String} (h : ∀ c ∈ s.data, isHexDigit c = true) : jsTrim s = s := by
  unfold jsTrim
  rw [dropWhile_space_of_hex h,
    dropWhile_space_of_hex (fun c hc => h c (List.mem_reverse.mp hc)), List.reverse_reverse]

/-- C5 counterexample.  On the empty palette the resolver's initial guard
(`colours.length === 0`) returns `null` before the hex pass-through is ever
tried, so `resolveRgb("#FF0000", [])` is not `"#FF0000"`. -/
theorem hexPassThrough_fails_on_empty_palette :
    findColourRgbFromTemplateValue "#FF0000" ([] : List Colour) = none := rfl

/-- C5 amended.  For every NON-EMPTY palette, `resolveRgb("#FF0000", palette)`
returns `"#FF0000"` unchanged regardless of the palette's contents, and more
generally any 6-hex-digit string without a leading `#` is returned with `#`
prepended.  (On the empty palette the resolver returns `null` instead.) -/
theorem hexPassThrough_on_nonEmpty_palette (colours : List Colour) (hne : colours ≠ []) :
    findColourRgbFromTemplateValue "#FF0000" colours = some "#FF0000"
    ∧ ∀ s : String, s.data.length = 6 → (∀ c ∈ s.data, isHexDigit c = true) →
        findColourRgbFromTemplateValue s colours = some ("#" ++ s) := by
  constructor
  · cases colours with
    | nil => exact absurd rfl hne
    | cons c cs => rfl
  · intro s hlen hall
    have hs : s ≠ "" := by
      intro he
      rw [he] at hlen
      simp at hlen
    unfold findColourRgbFromTemplateValue
    rw [if_neg (by exact not_or.mpr ⟨hs, hne⟩)]
    rw [jsTrim_of_hex hall]
    obtain ⟨a, b, c, d, e, f, ha, hb, hc, hd, he', hf, hdata⟩ :
        ∃ a b c d e f, isHexDigit a = true ∧ isHexDigit b = true ∧ isHexDigit c = true ∧
          isHexDigit d = true ∧ isHexDigit e = true ∧ isHexDigit f = true ∧
          s.data = [a, b, c, d, e, f] := by
      rcases hl : s.data with _ | ⟨a, _ | ⟨b, _ | ⟨c, _ | ⟨d, _ | ⟨e, _ | ⟨f, _ | ⟨g, t⟩⟩⟩⟩⟩⟩⟩ <;>
        rw [hl] at hlen <;> simp at hlen
      exact ⟨a, b, c, d, e, f, by
        refine ⟨?_, ?_, ?_, ?_, ?_, ?_, rfl⟩ <;> exact hall _ (by rw [hl]; simp)⟩
    have hrgb : rgbPrefix s = false := by
      unfold rgbPrefix
      rw [hdata]
      have h1 : (a = 'r') = False := by
        simp only [eq_iff_iff, iff_false]
        rintro rfl; exact absurd ha (by decide)
      have h2 : (a = 'R') = False := by
        simp only [eq_iff_iff, iff_false]
        rintro rfl; exact absurd ha (by decide)
      simp [h1, h2]
    have hhex : hex6 s = true := by
      unfold hex6
      rw [hdata]
      simp only [List.all_cons, List.all_nil, Bool.or_eq_true, Bool.and_eq_true]
      left
      refine ⟨rfl, ?_⟩
      simp [ha, hb, hc, hd, he', hf]
    have hhash : startsHash s = false := by
      unfold startsHash
      rw [hdata]
      have h1 : (a = '#') = False := by
        simp only [eq_iff_iff, iff_false]
        rintro rfl; exact absurd ha (by decide)
      simp [h1]
    simp only [hrgb, hhex, hhash]
    simp

/-- C5 witness: the amended theorem applied to the one-entry palette and to the
bare hex string `"FF0000"`. -/
theorem hexPassThrough_witness :
    (([⟨"1801", "1801 - White", 255, 255, 255⟩] : List Colour) ≠ [])
    ∧ findColourRgbFromTemplateValue "#FF0000" [⟨"1801", "1801 - White", 255, 255, 255⟩]
        = some "#FF0000"
    ∧ findColourRgbFromTemplateValue "FF0000" [⟨"1801", "1801 - White", 255, 255, 255⟩]
        = some "#FF0000" :=
  ⟨by decide,
   (hexPassThrough_on_nonEmpty_palette _ (by decide)).1,
   (hexPassThrough_on_nonEmpty_palette _ (by decide)).2 "FF0000" (by decide) (by decide)⟩

theorem lineCountKeyword_bounds (s : String) :
    0 ≤ lineCountKeyword s ∧ lineCountKeyword s ≤ 3 := by
  unfold lineCountKeyword
  split
  · omega
  · split
    · omega
    · split
      · omega
      · split <;> omega

theorem lineCount_bounds (t : Option Template) :
    0 ≤ getTemplateLineCount t ∧ getTemplateLineCount t ≤ 3 := by
  rcases t with _ | t
  · simp [getTemplateLineCount]
  · unfold getTemplateLineCount
    cases h : explicitLineField t with
    | some n => simp only [h]; constructor <;> omega
    | none =>
      simp only [h]
      cases he : t.TemplateElements with
      | some els =>
        simp only [he]
        split
        · constructor <;> omega
        · omega
      | none =>
        simp only [he]
        exact lineCountKeyword_bounds _

/-- C6.  `getTemplateLineCount` always lands in `[0,3]`; an explicit numeric
count field (first of `TextLines`/`NumberOfTextLines`/`Lines`) is clamped into
`[0,3]`; and a template carrying a `TemplateElements` array in which no element
has non-empty trimmed `Text` resolves to exactly 0, never to a heuristic
fallback. -/
theorem lineCount_in_range_and_clamped :
    (∀ t : Option Template, 0 ≤ getTemplateLineCount t ∧ getTemplateLineCount t ≤ 3)
    ∧ (∀ (t : Template) (n : Int), explicitLineField t = some n →
        getTemplateLineCount (some t) = max 0 (min 3 n))
    ∧ (∀ (t : Template) (els : List TemplateElement), explicitLineField t = none →
        t.TemplateElements = some els → els.filter hasNonEmptyText = [] →
        getTemplateLineCount (some t) = 0) := by
  refine ⟨lineCount_bounds, ?_, ?_⟩
  · intro t n h
    simp [getTemplateLineCount, h]
  · intro t els h1 h2 h3
    simp [getTemplateLineCount, h1, h2, h3]

/-- C6 witness: the clamping branch at an explicit count of 7 (yielding 3) and
the elements-without-text branch (yielding 0), both at concrete templates. -/
theorem lineCount_witness :
    getTemplateLineCount (some { Template.empty with TextLines := some 7 }) = max 0 (min 3 7)
    ∧ getTemplateLineCount
        (some { Template.empty with
                  TemplateElements := some [⟨"Design", none, none, none⟩,
                                            ⟨"Line1", some "  ", none, none⟩] }) = 0 :=
  ⟨lineCount_in_range_and_clamped.2.1 _ 7 rfl,
   lineCount_in_range_and_clamped.2.2 _ [⟨"Design", none, none, none⟩,
     ⟨"Line1", some "  ", none, none⟩] rfl rfl (by decide)⟩

theorem length_insertSorted (le : α → α → Bool) (x : α) (l : List α) :
    (insertSorted le x l).length = l.length + 1 := by
  induction l with
  | nil => rfl
  | cons y ys ih =>
    unfold insertSorted
    split <;> simp [ih]

theorem length_sortStable (le : α → α → Bool) (l : List α) :
    (sortStable le l).length = l.length := by
  induction l with
  | nil => rfl
  | cons x xs ih =>
    unfold sortStable at ih ⊢
    rw [List.foldr_cons, length_insertSorted, ih, List.length_cons]

/-- C3 counterexample.  A template whose only element carries `Text: ""`
resolves to 0 lines (elements exist, none non-empty), so `handleSelectTemplate`
sets `textLines` to `[]` — but the subsequent template-initialization effect
re-seeds `textLines` from the elements with a *string-typed* `Text` and ends
with one line, breaking the claimed synchronization with the resolved count. -/
def c3Template : Template :=
  { Template.empty with TemplateElements := some [⟨"Line1", some "", none, none⟩] }

theorem textLines_length_desync :
    getTemplateLineCount (some c3Template) = 0
    ∧ selectTemplateLines c3Template ["My Custom Text"] = []
    ∧ (initEffectLines c3Template).length = 1 := by
  refine ⟨by decide, by decide, by decide⟩

/-- C3 amended.  `handleSelectTemplate` (and the initial template selection)
leaves `textLines.length` equal to the template's resolved line count; the
subsequent initialization effect preserves that equality exactly when the
template has no element with a string-typed `Text` — otherwise it resets the
length to `min 3 k` where `k` counts the elements with a string-typed `Text`,
which differs from the resolved count when some of those texts are
empty/whitespace or an explicit count field disagrees. -/
theorem textLines_length_after_templateChange (tpl : Template) (prev : List String) :
    (selectTemplateLines tpl prev).length = (getTemplateLineCount (some tpl)).toNat
    ∧ (initEffectLines tpl).length =
        (if ((tpl.TemplateElements.getD []).filter (fun el => el.Text.isSome)).length = 0
         then (getTemplateLineCount (some tpl)).toNat
         else min 3 ((tpl.TemplateElements.getD []).filter (fun el => el.Text.isSome)).length) := by
  have hb := lineCount_bounds (some tpl)
  constructor
  · unfold selectTemplateLines
    simp only [List.length_take, List.length_append, List.length_replicate]
    omega
  · unfold initEffectLines deriveLines
    have hlen : (sortedTextEls tpl).length
        = ((tpl.TemplateElements.getD []).filter (fun el => el.Text.isSome)).length := by
      unfold sortedTextEls
      exact length_sortStable ..
    cases hemp : (sortedTextEls tpl).isEmpty with
    | true =>
      have h0 : (sortedTextEls tpl).length = 0 := by
        rw [List.isEmpty_iff] at hemp
        simp [hemp]
      rw [← hlen, h0]
      simp only [hemp, if_true, cond_true]
      simp only [List.length_take, List.length_replicate]
      omega
    | false =>
      have h0 : (sortedTextEls tpl).length ≠ 0 := by
        intro h
        rw [List.length_eq_zero] at h
        simp [h] at hemp
      rw [← hlen]
      simp only [hemp, Bool.false_eq_true, if_false]
      simp only [if_neg h0, List.length_take, List.length_map]
      omega

/-- C2.  Stale-preload discard.  A load completion whose generation is not the
one with attached handlers is a no-op; and in the concrete two-generation race
— G1 issued, G2 issued before G1's image finishes, G2's load completing first —
G2's URL is displayed and G1's late completion changes nothing, so the
displayed image is never set to G1's URL. -/
theorem stale_preload_discarded :
    (∀ (s : PreviewState) (g : Nat), s.activeGen ≠ some g → step s (.loadOk g) = s)
    ∧ (∀ (s s1 s2 s3 : PreviewState) (u1 u2 : String),
        u1 ≠ s.lastRenderUrl → u1 ≠ "" → u2 ≠ u1 → u2 ≠ "" →
        s1 = step s (.debounceFire u1) →
        s2 = step s1 (.debounceFire u2) →
        s3 = step s2 (.loadOk s2.loadsStarted) →
        s3.displayedUrl = u2 ∧ step s3 (.loadOk s1.loadsStarted) = s3) := by
  constructor
  · intro s g h
    simp [step, h]
  · intro s s1 s2 s3 u1 u2 h1 h1e h2 h2e e1 e2 e3
    have hs1 : s1
        = { s with isRendering := true, pendingUrl := u1, lastRenderUrl := u1,
                   loadsStarted := s.loadsStarted + 1, activeGen := some (s.loadsStarted + 1) } := by
      rw [e1]; simp [step, h1, h1e]
    have hs2 : s2
        = { s with isRendering := true, pendingUrl := u2, lastRenderUrl := u2,
                   loadsStarted := s.loadsStarted + 2, activeGen := some (s.loadsStarted + 2) } := by
      rw [e2, hs1]
      simp only [step]
      rw [if_neg (by simpa using h2), if_neg h2e]
    have hs3 : s3
        = { s with isRendering := false, pendingUrl := u2, lastRenderUrl := u2,
                   previewUrl := u2, displayedUrl := u2, imgKey := s.imgKey + 1,
                   loadsStarted := s.loadsStarted + 2, activeGen := some (s.loadsStarted + 2) } := by
      rw [e3, hs2]
      simp [step]
    refine ⟨by rw [hs3], ?_⟩
    rw [hs3, hs1]
    simp only [step]
    rw [if_neg (by simp)]

/-- C2 witness: the race theorem run from the freshly mounted state with two
distinct concrete URLs `"r1"`, `"r2"`: after G2's load completes, `"r2"` is
displayed and G1's late completion (generation 1) leaves the state unchanged. -/
theorem stale_preload_witness :
    (⟨"r2", "r2", "r2", "r2", false, 1, 2, some 2⟩ : PreviewState).displayedUrl = "r2"
    ∧ step (⟨"r2", "r2", "r2", "r2", false, 1, 2, some 2⟩ : PreviewState)
        (.loadOk (⟨"r1", "r1", "", "product.png", true, 0, 1, some 1⟩ :
          PreviewState).loadsStarted)
      = ⟨"r2", "r2", "r2", "r2", false, 1, 2, some 2⟩ :=
  stale_preload_discarded.2 ⟨"", "", "", "product.png", false, 0, 0, none⟩
    ⟨"r1", "r1", "", "product.png", true, 0, 1, some 1⟩
    ⟨"r2", "r2", "", "product.png", true, 0, 2, some 2⟩
    ⟨"r2", "r2", "r2", "r2", false, 1, 2, some 2⟩
    "r1" "r2" (by decide) (by decide) (by decide) (by decide) (by decide) (by decide) (by decide)

/-- C9.  When the off-screen preload of the pending render URL fails
(`img.onerror` of the generation whose handlers are attached), the rendering
indicator is cleared and the displayed (and current preview) image is left
unchanged — a failed render never replaces the previously displayed image. -/
theorem preload_error_keeps_displayed (s : PreviewState) (g : Nat)
    (h : s.activeGen = some g) :
    (step s (.loadErr g)).isRendering = false
    ∧ (step s (.loadErr g)).displayedUrl = s.displayedUrl
    ∧ (step s (.loadErr g)).previewUrl = s.previewUrl
    ∧ (step s (.loadErr g)).pendingUrl = s.pendingUrl := by
  simp [step, h]

/-- C9 witness: the error transition at a concrete mid-preload state. -/
theorem preload_error_witness :
    ((⟨"r1", "r1", "old", "old", true, 3, 1, some 1⟩ : PreviewState).activeGen = some 1)
    ∧ (step ⟨"r1", "r1", "old", "old", true, 3, 1, some 1⟩ (.loadErr 1)).isRendering = false
    ∧ (step (⟨"r1", "r1", "old", "old", true, 3, 1, some 1⟩ : PreviewState)
        (.loadErr 1)).displayedUrl = "old" :=
  ⟨rfl, (preload_error_keeps_displayed _ 1 rfl).1, (preload_error_keeps_displayed _ 1 rfl).2.1⟩

/-- C10.  In the template-initialization effect, when the template yields no
resolvable colour, a previously selected colour is never overwritten; only when
no colour is selected is the default applied, namely the RGB of the first
palette entry whose `Code` is `"1801"` — and when no such entry exists the
colour simply stays unset. -/
theorem init_default_color (tpl : Template) (color : Option String) (colours : List Colour)
    (h : deriveColorRgb tpl colours = none) :
    (∀ c0 : String, color = some c0 → initEffectColor tpl color colours = some c0)
    ∧ (color = none →
        initEffectColor tpl color colours
          = (colours.find? (fun c => c.Code == "1801")).map rgbStr) := by
  constructor
  · intro c0 hc
    simp [initEffectColor, h, hc]
  · intro hc
    simp [initEffectColor, h, hc]

/-- C10 witness: a colour-less template over a palette containing code `1801`
(default applied when nothing is selected) and with a colour already selected
(default not applied). -/
theorem init_default_color_witness :
    initEffectColor Template.empty none [⟨"1801", "1801 - White", 255, 255, 255⟩]
      = some "rgb(255, 255, 255)"
    ∧ initEffectColor Template.empty (some "rgb(1, 2, 3)")
        [⟨"1801", "1801 - White", 255, 255, 255⟩] = some "rgb(1, 2, 3)" := by
  constructor
  · have := (init_default_color Template.empty none
      [⟨"1801", "1801 - White", 255, 255, 255⟩] (by decide)).2 rfl
    rw [this]
    decide
  · exact (init_default_color Template.empty (some "rgb(1, 2, 3)")
      [⟨"1801", "1801 - White", 255, 255, 255⟩] (by decide)).1 "rgb(1, 2, 3)" rfl

theorem findColour_by_code (value code : String) (colours : List Colour) (e : Colour)
    (hv : value ≠ "") (hne : colours ≠ [])
    (hrgb : rgbPrefix (jsTrim value) = false) (hhex : hex6 (jsTrim value) = false)
    (hcp : codePrefix (jsTrim value) = some code)
    (hfind : codeFind code colours = some e) :
    findColourRgbFromTemplateValue value colours = some (rgbStr e) := by
  unfold findColourRgbFromTemplateValue
  rw [if_neg (not_or.mpr ⟨hv, hne⟩)]
  simp only [hrgb, hhex, hcp, hfind]
  simp

theorem findColour_by_overlap (value : String) (colours : List Colour) (e : Colour)
    (hv : value ≠ "") (hne : colours ≠ [])
    (hrgb : rgbPrefix (jsTrim value) = false) (hhex : hex6 (jsTrim value) = false)
    (hcp : codePrefix (jsTrim value) = none)
    (hexact : exactNameFind (jsTrim value) colours = none)
    (hover : overlapFind (jsTrim value) colours = some e) :
    findColourRgbFromTemplateValue value colours = some (rgbStr e) := by
  unfold findColourRgbFromTemplateValue
  rw [if_neg (not_or.mpr ⟨hv, hne⟩)]
  simp only [hrgb, hhex, hcp, hexact, hover]
  simp

/-- C7 counterexample.  The palette below contains the entry with `Code "1842"`
and `Name "1842 - Royal Blue"`, yet `resolveRgb("Royal Blue", palette)` differs
from `resolveRgb("1842", palette)`: the bare name is resolved by the substring
overlap strategy, which the earlier entry `"Dark Royal Blue Mix"` shadows,
while the code-bearing inputs hit the exact code strategy. -/
def c7Palette : List Colour :=
  [⟨"9000", "Dark Royal Blue Mix", 10, 20, 30⟩, ⟨"1842", "1842 - Royal Blue", 65, 105, 225⟩]

theorem royalBlue_aliases_can_disagree :
    ((⟨"1842", "1842 - Royal Blue", 65, 105, 225⟩ : Colour) ∈ c7Palette)
    ∧ findColourRgbFromTemplateValue "1842 - Royal Blue" c7Palette = some "rgb(65, 105, 225)"
    ∧ findColourRgbFromTemplateValue "1842" c7Palette = some "rgb(65, 105, 225)"
    ∧ findColourRgbFromTemplateValue "Royal Blue" c7Palette = some "rgb(10, 20, 30)"
    ∧ findColourRgbFromTemplateValue "Royal Blue" c7Palette
        ≠ findColourRgbFromTemplateValue "1842" c7Palette := by
  exact ⟨by decide, by decide, by decide, by decide, by decide⟩

/-- C7 amended.  When the `1842`-coded entry is the entry that each consulted
strategy finds first — it is the first code match for `"1842"`, no palette name
equals `"Royal Blue"` case-insensitively, and it is the first substring-overlap
match for `"Royal Blue"` (no earlier entry's name overlaps it) — the three
inputs `"1842 - Royal Blue"`, `"1842"` and `"Royal Blue"` all resolve to that
entry's RGB string. -/
theorem royalBlue_aliases_agree (colours : List Colour) (e : Colour)
    (_hname : e.Name = "1842 - Royal Blue")
    (h1 : codeFind "1842" colours = some e)
    (h2 : exactNameFind "Royal Blue" colours = none)
    (h3 : overlapFind "Royal Blue" colours = some e) :
    findColourRgbFromTemplateValue "1842 - Royal Blue" colours = some (rgbStr e)
    ∧ findColourRgbFromTemplateValue "1842" colours = some (rgbStr e)
    ∧ findColourRgbFromTemplateValue "Royal Blue" colours = some (rgbStr e) := by
  have hne : colours ≠ [] := by
    rintro rfl
    simp [codeFind] at h1
  refine ⟨?_, ?_, ?_⟩
  · exact findColour_by_code "1842 - Royal Blue" "1842" colours e (by decide) hne
      (by decide) (by decide) (by decide) h1
  · exact findColour_by_code "1842" "1842" colours e (by decide) hne
      (by decide) (by decide) (by decide) h1
  · exact findColour_by_overlap "Royal Blue" colours e (by decide) hne
      (by decide) (by decide) (by decide) h2 h3

/-- C7 witness: the amended theorem on a palette where nothing shadows the
`1842` entry. -/
theorem royalBlue_aliases_witness :
    findColourRgbFromTemplateValue "1842 - Royal Blue"
        [⟨"1801", "1801 - White", 255, 255, 255⟩, ⟨"1842", "1842 - Royal Blue", 65, 105, 225⟩]
      = some "rgb(65, 105, 225)"
    ∧ findColourRgbFromTemplateValue "1842"
        [⟨"1801", "1801 - White", 255, 255, 255⟩, ⟨"1842", "1842 - Royal Blue", 65, 105, 225⟩]
      = some "rgb(65, 105, 225)"
    ∧ findColourRgbFromTemplateValue "Royal Blue"
        [⟨"1801", "1801 - White", 255, 255, 255⟩, ⟨"1842", "1842 - Royal Blue", 65, 105, 225⟩]
      = some "rgb(65, 105, 225)" :=
  royalBlue_aliases_agree
    [⟨"1801", "1801 - White", 255, 255, 255⟩, ⟨"1842", "1842 - Royal Blue", 65, 105, 225⟩]
    ⟨"1842", "1842 - Royal Blue", 65, 105, 225⟩ rfl (by decide) (by decide) (by decide)

/-- C8.  The Font Reconciler: (1) when the template's `TemplateFonts` table
maps the (trimmed) raw override case-insensitively to a non-empty name present
in the catalog, that catalog entry's name is returned; (2) tolerance of case,
punctuation and font-file extensions: against a catalog holding `"Block"`, the
raw override `"block-regular.ttf"` resolves to `"Block"` whatever the
template's mapping table says; (3) the result, when not `null`, is always the
name of some catalog entry — never a name outside the catalog. -/
theorem resolveFont_correct :
    (∀ (tpl : Template) (ov : String) (fonts : List FontEntry)
        (m : TemplateFontMap) (f : FontEntry),
      ov ≠ "" → fonts ≠ [] →
      pulseFind (jsTrim ov) (tpl.TemplateFonts.getD []) = some m →
      m.FontName ≠ "" →
      fontNameFind m.FontName fonts = some f →
      resolveFontFromOverride tpl ov fonts = some f.FontName)
    ∧ (∀ tpl : Template,
        resolveFontFromOverride tpl "block-regular.ttf" [⟨"Block"⟩] = some "Block")
    ∧ (∀ (tpl : Template) (ov r : String) (fonts : List FontEntry),
        resolveFontFromOverride tpl ov fonts = some r → ∃ f ∈ fonts, f.FontName = r) := by
  have hstep2 : ∀ (ov r : String) (fonts : List FontEntry),
      resolveFontStep2 ov fonts = some r → ∃ f ∈ fonts, f.FontName = r := by
    intro ov r fonts h2
    unfold resolveFontStep2 at h2
    rcases he : fontNameFind ov fonts with _ | f
    · rw [he] at h2
      rcases hn : fontNormFind (fontNormalize ov) fonts with _ | f
      · rw [hn] at h2
        rcases hpf : fontPrefixFind (fontNormalize ov) fonts with _ | f
        · rw [hpf] at h2
          exact absurd h2 (by simp)
        · rw [hpf] at h2
          simp only [Option.map_some', Option.some.injEq] at h2
          exact ⟨f, List.mem_of_find?_eq_some hpf, h2⟩
      · rw [hn] at h2
        simp only [Option.some.injEq] at h2
        exact ⟨f, List.mem_of_find?_eq_some hn, h2⟩
    · rw [he] at h2
      simp only [Option.some.injEq] at h2
      exact ⟨f, List.mem_of_find?_eq_some he, h2⟩
  refine ⟨?_, ?_, ?_⟩
  · intro tpl ov fonts m f hov hfonts hpulse hm hfind
    unfold resolveFontFromOverride resolveFontStep1
    rw [if_neg (not_or.mpr ⟨hov, hfonts⟩)]
    simp only [hpulse]
    rw [if_pos hm]
    simp only [hfind]
    simp
  · intro tpl
    unfold resolveFontFromOverride resolveFontStep1
    rw [if_neg (by exact not_or.mpr ⟨by decide, by decide⟩)]
    cases hp : pulseFind (jsTrim "block-regular.ttf") (tpl.TemplateFonts.getD []) with
    | none => simp only [hp]; rfl
    | some m =>
      simp only [hp]
      by_cases hm : m.FontName = ""
      · rw [if_neg (fun hne => hne hm)]
        rfl
      · rw [if_pos hm]
        cases hf : fontNameFind m.FontName [⟨"Block"⟩] with
        | none => simp only [hf, Option.map_none']; rfl
        | some f =>
          have hfB : f = ⟨"Block"⟩ := by
            have hmem := List.mem_of_find?_eq_some hf
            simpa using hmem
          subst hfB
          simp only [hf, Option.map_some']
  · intro tpl ov r fonts h
    unfold resolveFontFromOverride at h
    by_cases hg : ov = "" ∨ fonts = []
    · rw [if_pos hg] at h
      exact absurd h (by simp)
    · rw [if_neg hg] at h
      rcases hs1 : resolveFontStep1 tpl (jsTrim ov) fonts with _ | r1
      · rw [hs1] at h
        exact hstep2 _ _ _ h
      · rw [hs1] at h
        simp only [Option.some.injEq] at h
        subst h
        unfold resolveFontStep1 at hs1
        rcases hp : pulseFind (jsTrim ov) (tpl.TemplateFonts.getD []) with _ | m
        · simp only [hp] at hs1
          exact absurd hs1 (by simp)
        · simp only [hp] at hs1
          by_cases hm : m.FontName = ""
          · rw [if_neg (fun hne => hne hm)] at hs1
            exact absurd hs1 (by simp)
          · rw [if_pos hm] at hs1
            rcases hf : fontNameFind m.FontName fonts with _ | f
            · rw [hf, Option.map_none'] at hs1
              exact absurd hs1 (by simp)
            · rw [hf, Option.map_some'] at hs1
              simp only [Option.some.injEq] at hs1
              exact ⟨f, List.mem_of_find?_eq_some hf, hs1⟩

/-- C8 witness: the `TemplateFonts` mapping branch at a concrete template,
override and two-font catalog. -/
theorem resolveFont_witness :
    resolveFontFromOverride
        { Template.empty with TemplateFonts := some [⟨"block regular", "Block"⟩] }
        "Block Regular" [⟨"Script"⟩, ⟨"Block"⟩]
      = some (FontEntry.FontName ⟨"Block"⟩) :=
  resolveFont_correct.1
    { Template.empty with TemplateFonts := some [⟨"block regular", "Block"⟩] }
    "Block Regular" [⟨"Script"⟩, ⟨"Block"⟩] ⟨"block regular", "Block"⟩ ⟨"Block"⟩
    (by decide) (by decide) (by decide) (by decide) (by decide)

end Rbg
